import Mathlib

/-!
# Verification of the volume-viewer specification against its sources

The repository ships the TypeScript host (`src/components/viewer/VolumeViewer.tsx`,
`src/app/page.tsx`) of a WASM volume-rendering engine.  The host code is embedded
here directly from the source; rational numbers stand in for JavaScript numbers
(the claims under study depend only on exact arithmetic on the literals that
appear in the source).  The Rust engine itself (`lib.rs`, `camera.rs`,
`renderer.rs`, `tiff_loader.rs`, `transfer_function.rs` listed in the README) is
not part of the repository snapshot, so the engine-side definitions are modelled
from the specification, as indicated by their doc comments.
-/

namespace VolumeViewer

/-! ## Engine side, modelled from the spec (§3, §4, §7) -/

/-- Modelled from the spec (§7 Error handling; the Rust decoder `tiff_loader.rs`
is not in the repository): the four decode error kinds surfaced to the host. -/
inductive DecodeError
  | unsupportedFormat
  | inconsistentDimensions
  | emptyVolume
  | corruptInput
deriving DecidableEq, Repr

/-- Modelled from the spec (§4.1): one parsed page of a multi-page image input —
dimensions, per-sample bit depth, channel count and the raw integer samples. -/
structure Page where
  width : Nat
  height : Nat
  bitDepth : Nat
  channels : Nat
  samples : List Nat
deriving DecidableEq, Repr

/-- Modelled from the spec (§3 Volume): dimensions plus the contiguous list of
normalized scalar intensities in `[0,1]`. -/
structure Volume where
  width : Nat
  height : Nat
  depth : Nat
  data : List ℚ
deriving DecidableEq, Repr

/-- Modelled from the spec (§4.1): decode one page against the first page's
dimensions.  Fails with `unsupportedFormat` when the bit depth is neither 8 nor
16 or the layout is not single-channel, with `inconsistentDimensions` when the
page's size differs from the first page's; otherwise normalizes each sample by
the maximum representable value for the bit depth (255 or 65535). -/
def decodePage (w0 h0 : Nat) (p : Page) : Except DecodeError (List ℚ) :=
  if ¬ (p.bitDepth = 8 ∨ p.bitDepth = 16) then .error .unsupportedFormat
  else if p.channels ≠ 1 then .error .unsupportedFormat
  else if p.width ≠ w0 ∨ p.height ≠ h0 then .error .inconsistentDimensions
  else .ok (p.samples.map fun s => (s : ℚ) / ((2 ^ p.bitDepth : ℚ) - 1))

/-- Modelled from the spec (§4.1): decode a list of pages in order against the
first page's dimensions, concatenating the normalized slices. -/
def decodePages (w0 h0 : Nat) : List Page → Except DecodeError (List ℚ)
  | [] => .ok []
  | p :: ps => do
      let d ← decodePage w0 h0 p
      let rest ← decodePages w0 h0 ps
      .ok (d ++ rest)

/-- Modelled from the spec (§4.1, §7): the Slice Decoder.  `none` stands for a
byte stream that does not parse as the container format at all
(`corruptInput`); an empty page list fails with `emptyVolume`; otherwise all
pages are decoded against the first page's dimensions and assembled into a
Volume whose depth is the page count. -/
def decodeVolume : Option (List Page) → Except DecodeError Volume
  | none => .error .corruptInput
  | some [] => .error .emptyVolume
  | some (p :: ps) =>
      match decodePages p.width p.height (p :: ps) with
      | .error e => .error e
      | .ok data => .ok ⟨p.width, p.height, (p :: ps).length, data⟩

/-- Modelled from the spec (§4.3; `camera.rs` is not in the repository): the
minimum positive camera distance to which zoom is clamped. -/
def MIN_DISTANCE : ℚ := 1 / 10

/-- Modelled from the spec (§4.3): the maximum camera distance bound avoiding
numeric blow-up. -/
def MAX_DISTANCE : ℚ := 100

/-- Modelled from the spec (§4.3): the clamp bound keeping `phi` strictly
inside the poles. -/
def MAX_PHI : ℚ := 157 / 100

/-- Modelled from the spec (§3 Camera): orbit angles, zoom distance, pan offset. -/
structure Camera where
  theta : ℚ
  phi : ℚ
  distance : ℚ
  panX : ℚ
  panY : ℚ
deriving DecidableEq, Repr

/-- Modelled from the spec (§4.3): `theta += deltaTheta` (the spec's wrap modulo
a full turn is omitted — no claim under study depends on `theta`), `phi`
accumulates and is clamped inside the poles. -/
def Camera.orbit (c : Camera) (deltaTheta deltaPhi : ℚ) : Camera :=
  { c with
    theta := c.theta + deltaTheta
    phi := max (-MAX_PHI) (min MAX_PHI (c.phi + deltaPhi)) }

/-- Modelled from the spec (§4.3): `distance *= (1 + delta)`, clamped to the
positive minimum and the maximum bound. -/
def Camera.zoom (c : Camera) (delta : ℚ) : Camera :=
  { c with distance := max MIN_DISTANCE (min MAX_DISTANCE (c.distance * (1 + delta))) }

/-- Modelled from the spec (§4.3): the pan offset accumulates the pair of
deltas scaled by the current distance. -/
def Camera.pan (c : Camera) (delta : ℚ × ℚ) : Camera :=
  { c with
    panX := c.panX + delta.1 * c.distance
    panY := c.panY + delta.2 * c.distance }

/-- Modelled from the spec (§2, §4.5): the Engine Facade's state — one Camera,
one optional Volume, the viewport dimensions. -/
structure Engine where
  camera : Camera
  volume : Option Volume
  viewportW : Nat
  viewportH : Nat
deriving DecidableEq, Repr

/-- Modelled from the spec (§4.5): `orbit` forwards to the Camera. -/
def Engine.orbit (e : Engine) (deltaTheta deltaPhi : ℚ) : Engine :=
  { e with camera := e.camera.orbit deltaTheta deltaPhi }

/-- Modelled from the spec (§4.5): `zoom` forwards to the Camera. -/
def Engine.zoom (e : Engine) (delta : ℚ) : Engine :=
  { e with camera := e.camera.zoom delta }

/-- Modelled from the spec (§4.5): `pan` forwards to the Camera.  Its argument
is the pair of deltas as passed by the host (`pan(delta: [number, number])` in
the `VolumeViewerWasm` interface of `VolumeViewer.tsx`). -/
def Engine.pan (e : Engine) (delta : ℚ × ℚ) : Engine :=
  { e with camera := e.camera.pan delta }

/-- Modelled from the spec (§4.3, §4.5): `resize` updates the viewport
dimensions and does not alter orbit/zoom/pan state. -/
def Engine.resize (e : Engine) (width height : Nat) : Engine :=
  { e with viewportW := width, viewportH := height }

/-- Modelled from the spec (§4.5): `load_volume` runs the Slice Decoder,
replaces the Volume Store on success and returns the `(width, height, depth)`
dimensions as a 3-element list; on a decode failure the engine state is
returned unchanged and the error is propagated. -/
def Engine.load_volume (e : Engine) (input : Option (List Page)) :
    Engine × Except DecodeError (List Nat) :=
  match decodeVolume input with
  | .ok v => ({ e with volume := some v }, .ok [v.width, v.height, v.depth])
  | .error err => (e, .error err)

/-- Modelled from the spec (§3 Transfer Function): identity grayscale ramp —
intensity to equal RGB with opacity proportional to intensity. -/
def transferFunction (intensity : ℚ) : ℚ × ℚ × ℚ × ℚ :=
  (intensity, intensity, intensity, intensity)

/-- Modelled from the spec (§4.4): convert a linear channel value in `[0,1]`
to the 0–255 integer range. -/
def toByte (q : ℚ) : Nat :=
  min 255 (max 0 (⌊q * 255⌋)).toNat

/-- Modelled from the spec (§4.4): the well-defined background pixel written
when no volume is loaded or a ray misses the bounding box. -/
def backgroundPixel : List Nat := [0, 0, 0, 0]

/-- Modelled from the spec (§4.4; `renderer.rs` is not in the repository): one
output pixel as a 4-byte R,G,B,A group.  A missing volume yields the background
pixel; otherwise the ray march is abstracted to a direct volume sample at the
pixel position mapped through the Transfer Function — the claims under study
concern only the buffer's 4-bytes-per-pixel row-major structure, which this
model keeps exactly. -/
def renderPixel (e : Engine) (x y : Nat) : List Nat :=
  match e.volume with
  | none => backgroundPixel
  | some v =>
      let intensity := v.data.getD (y * v.width + x) 0
      let c := transferFunction intensity
      [toByte c.1, toByte c.2.1, toByte c.2.2.1, toByte c.2.2.2]

/-- Modelled from the spec (§4.4, §6): `render` always succeeds and fills one
4-channel pixel per viewport position, rows from the top (`y = 0`) in
row-major order. -/
def Engine.render (e : Engine) : List Nat :=
  (List.range e.viewportH).flatMap fun y =>
    (List.range e.viewportW).flatMap fun x => renderPixel e x y

/-! ## Facade operation traces (for the camera invariant and frame production) -/

/-- The camera-mutating facade operations of §4.5, with the argument shapes of
the `VolumeViewerWasm` interface (`VolumeViewer.tsx` lines 16–19): `pan` carries
one pair of deltas. -/
inductive EngineOp
  | orbit (deltaTheta deltaPhi : ℚ)
  | zoom (delta : ℚ)
  | pan (delta : ℚ × ℚ)
  | resize (width height : Nat)
deriving DecidableEq, Repr

/-- Dispatch one facade operation on the engine state. -/
def Engine.applyOp (e : Engine) : EngineOp → Engine
  | .orbit dt dp => e.orbit dt dp
  | .zoom d => e.zoom d
  | .pan delta => e.pan delta
  | .resize w h => e.resize w h

/-- A host-side step: either a camera-mutating facade call, or a `render` call
whose result is put on the drawing surface. -/
inductive HostStep
  | op (o : EngineOp)
  | renderStep
deriving DecidableEq, Repr

/-- The engine paired with the surface contents (the last frame put on the
drawing surface, `none` before any render).  Only `renderStep` produces a new
frame; a facade operation leaves the surface untouched. -/
def runHostStep : Engine × Option (List Nat) → HostStep → Engine × Option (List Nat)
  | (e, surface), .op o => (e.applyOp o, surface)
  | (e, _), .renderStep => (e, some e.render)

/-! ## Host side, embedded from `src/components/viewer/VolumeViewer.tsx` -/

/-- A JavaScript-level argument value, as the host passes it across the WASM
boundary: a number or an array of values. -/
inductive JsValue
  | num (q : ℚ)
  | arr (elems : List JsValue)

/-- Whether a JavaScript value is a scalar number. -/
def JsValue.isScalar : JsValue → Bool
  | .num _ => true
  | .arr _ => false

/-- The argument list of the host's `pan` invocation in `handleMouseMove`
(`VolumeViewer.tsx` line 154): `viewer.pan([deltaX * 0.1, deltaY * 0.1])` — a
single argument holding the array of the two scaled deltas. -/
def panCallArgs (deltaX deltaY : ℚ) : List JsValue :=
  [JsValue.arr [JsValue.num (deltaX * (1 / 10)), JsValue.num (deltaY * (1 / 10))]]

/-- The shape of one declared parameter of a boundary method: a scalar number
or a pair (two-element array type). -/
inductive ArgShape
  | scalar
  | pair
deriving DecidableEq, Repr

/-- From the `VolumeViewerWasm` interface (`VolumeViewer.tsx` line 18):
`pan(delta: [number, number]): void` — the declared parameter list of `pan` is
one pair-typed parameter. -/
def panParameterShapes : List ArgShape := [ArgShape.pair]

/-- Host environment facts the handlers guard on: whether the WASM viewer is
initialized (`viewer` non-null), whether the canvas ref is attached, and
whether a 2D context could be acquired. -/
structure HostEnv where
  viewerLoaded : Bool
  canvasAvailable : Bool
  ctxAvailable : Bool
deriving DecidableEq, Repr

/-- Mouse-interaction state tracked by the host (`ViewerState` fields used by
`handleMouseMove`). -/
structure MouseState where
  isDragging : Bool
  mouseButton : Option Nat
  lastX : ℚ
  lastY : ℚ
deriving DecidableEq, Repr

/-- One observable call the host makes: an engine-facade call, or the surface
update (`ctx.putImageData`). -/
inductive HostCall
  | orbit (deltaTheta deltaPhi : ℚ)
  | pan (delta : ℚ × ℚ)
  | zoom (delta : ℚ)
  | render
  | surfaceUpdate
deriving DecidableEq, Repr

/-- `renderFrame` (`VolumeViewer.tsx` lines 35–59): returns early when the
viewer or canvas is missing; throws before rendering when no 2D context is
available; otherwise calls `viewer.render()` and puts the frame on the surface. -/
def renderFrameCalls (env : HostEnv) : List HostCall :=
  if ¬ env.viewerLoaded ∨ ¬ env.canvasAvailable then []
  else if ¬ env.ctxAvailable then []
  else [.render, .surfaceUpdate]

/-- `handleMouseMove` (`VolumeViewer.tsx` lines 142–173): returns early unless
dragging with the viewer loaded; button 0 orbits with the deltas scaled by
0.005, button 2 pans with the deltas scaled by 0.1 passed as one pair; then
`renderFrame()` runs. -/
def handleMouseMove (env : HostEnv) (s : MouseState) (clientX clientY : ℚ) :
    List HostCall :=
  if ¬ s.isDragging ∨ ¬ env.viewerLoaded then []
  else
    let deltaX := clientX - s.lastX
    let deltaY := clientY - s.lastY
    (if s.mouseButton = some 0 then
      [.orbit (deltaX * (5 / 1000)) (deltaY * (5 / 1000))]
    else if s.mouseButton = some 2 then
      [.pan (deltaX * (1 / 10), deltaY * (1 / 10))]
    else []) ++ renderFrameCalls env

/-- `handleWheel` (`VolumeViewer.tsx` lines 183–198): returns early when the
viewer is missing; otherwise zooms by `+0.1` when `e.deltaY > 0` and by `-0.1`
otherwise, then `renderFrame()` runs. -/
def handleWheel (env : HostEnv) (wheelDeltaY : ℚ) : List HostCall :=
  if ¬ env.viewerLoaded then []
  else [.zoom (if wheelDeltaY > 0 then 1 / 10 else -(1 / 10))] ++ renderFrameCalls env

/-- The size bound of `handleFileUpload` (`VolumeViewer.tsx` line 227):
`256 * 1024 * 1024` bytes. -/
def MAX_FILE_SIZE : Nat := 256 * 1024 * 1024

/-- The lowercased character sequence of a file name
(`file.name.toLowerCase()`). -/
def lowerName (name : String) : List Char :=
  name.data.map Char.toLower

/-- The extension filter of `handleFileUpload` (`VolumeViewer.tsx` lines
218–224): the lowercased name must end in `.tif` or `.tiff` (modelled at the
character-list level). -/
def tiffExtension (name : String) : Bool :=
  (".tif".data).isSuffixOf (lowerName name) || (".tiff".data).isSuffixOf (lowerName name)

/-- The dimension validation of `handleFileUpload` (`VolumeViewer.tsx` lines
242–245): a null result or one whose length differs from 3 is rejected. -/
def dimensionsValid : Option (List Nat) → Bool
  | none => false
  | some dims => dims.length == 3

/-- A selected file as the upload handler sees it: name, byte size, and the
parsed-container model of its content handed to `load_volume`. -/
structure UploadFile where
  name : String
  size : Nat
  content : Option (List Page)
deriving DecidableEq, Repr

/-- The host state fields `handleFileUpload` ends with. -/
structure HostState where
  dimensions : Option (List Nat)
  error : Option String
  isLoading : Bool
deriving DecidableEq, Repr

/-- The error message for an engine decode failure surfaced by the catch block. -/
def decodeErrorMessage : DecodeError → String
  | .unsupportedFormat => "UnsupportedFormat"
  | .inconsistentDimensions => "InconsistentDimensions"
  | .emptyVolume => "EmptyVolume"
  | .corruptInput => "CorruptInput"

/-- `handleFileUpload` (`VolumeViewer.tsx` lines 204–279): clears dimensions,
checks the extension, then the size bound, then awaits the bytes and calls
`load_volume`, then validates that the result is a 3-element tuple; any thrown
error is caught and ends with a non-null error message and null dimensions.
Returns the final host state, whether `load_volume` was invoked, and the
resulting engine state. -/
def handleFileUpload (e : Engine) (f : UploadFile) : HostState × Bool × Engine :=
  if ¬ tiffExtension f.name then
    (⟨none, some "Please select a TIFF file", false⟩, false, e)
  else if f.size > MAX_FILE_SIZE then
    (⟨none, some "File size too large (max 256MB)", false⟩, false, e)
  else
    match e.load_volume f.content with
    | (e2, .ok dims) =>
        if dimensionsValid (some dims) then
          (⟨some dims, none, false⟩, true, e2)
        else
          (⟨none, some "Invalid volume dimensions received", false⟩, true, e2)
    | (e2, .error err) =>
        (⟨none, some (decodeErrorMessage err), false⟩, true, e2)

/-! ## Concrete states for witnesses -/

/-- Modelled from the spec (§3 Camera; the initial distance is left open by
both spec and host, a representative positive value is used). -/
def cameraInit : Camera := ⟨0, 0, 5, 0, 0⟩

/-- The engine as constructed by the host (`new wasmModule.VolumeViewer(canvas.width,
canvas.height)` with the initial 800×600 canvas of `VolumeViewer.tsx`), before
any volume is loaded. -/
def engineInit : Engine := ⟨cameraInit, none, 800, 600⟩

/-- A 1×1, 8-bit, single-channel page with one zero sample. -/
def witnessPage : Page := ⟨1, 1, 8, 1, [0]⟩

/-- The volume `witnessPage` decodes to. -/
def witnessVolume : Volume := ⟨1, 1, 1, [(0 : ℚ) / ((2 ^ (8 : ℕ) : ℚ) - 1)]⟩

/-! ## Helper lemmas -/

/-- A flatMap whose blocks all have length `k` has length `k * l.length`. -/
theorem length_flatMap_const {α β : Type} (l : List α) (f : α → List β) (k : Nat)
    (h : ∀ a, (f a).length = k) : (l.flatMap f).length = k * l.length := by
  induction l with
  | nil => simp
  | cons a t ih =>
      simp only [List.flatMap_cons, List.length_append, h, ih, List.length_cons]
      ring

/-- Every rendered pixel is a 4-byte group. -/
theorem renderPixel_length (e : Engine) (x y : Nat) : (renderPixel e x y).length = 4 := by
  cases h : e.volume <;> simp [renderPixel, h, backgroundPixel]

/-- Each facade operation preserves the zoom floor on the camera distance. -/
theorem applyOp_min_distance (e : Engine) (o : EngineOp)
    (h : MIN_DISTANCE ≤ e.camera.distance) :
    MIN_DISTANCE ≤ (e.applyOp o).camera.distance := by
  cases o with
  | orbit dt dp => simpa [Engine.applyOp, Engine.orbit, Camera.orbit] using h
  | zoom d =>
      simp only [Engine.applyOp, Engine.zoom, Camera.zoom]
      exact le_max_left _ _
  | pan delta => simpa [Engine.applyOp, Engine.pan, Camera.pan] using h
  | resize w hh => simpa [Engine.applyOp, Engine.resize] using h

/-- The zoom floor is preserved along any operation sequence. -/
theorem foldl_applyOp_min_distance (ops : List EngineOp) :
    ∀ e : Engine, MIN_DISTANCE ≤ e.camera.distance →
      MIN_DISTANCE ≤ (ops.foldl Engine.applyOp e).camera.distance := by
  induction ops with
  | nil => intro e he; simpa using he
  | cons o t ih =>
      intro e he
      exact ih (e.applyOp o) (applyOp_min_distance e o he)

/-! ## Claim theorems -/

/-- C1 counterexample: the claim says `pan` takes two scalar arguments.  At the
concrete deltas (10, 20) the host's `pan` invocation passes a single array
argument (not two, and not a scalar), and the interface declares `pan` with one
pair-typed parameter, not two scalar parameters. -/
theorem C1_two_scalar_args_refuted :
    (panCallArgs 10 20).length ≠ 2 ∧
    (∀ v ∈ panCallArgs 10 20, v.isScalar = false) ∧
    panParameterShapes ≠ [ArgShape.scalar, ArgShape.scalar] := by
  refine ⟨by simp [panCallArgs], ?_, by decide⟩
  intro v hv
  simp only [panCallArgs, List.mem_singleton] at hv
  subst hv
  rfl

/-- C1 (amended): the facade's `pan` operation takes a single argument holding
the pair of deltas, forwards it to the Camera, returns only the updated engine
state, and does not by itself produce a new frame: a pan step leaves the
drawing surface unchanged, and the effect is observed only through a separate
render step. -/
theorem C1_pan_forwards_no_frame (e : Engine) (surface : Option (List Nat))
    (deltaX deltaY : ℚ) :
    runHostStep (e, surface) (.op (.pan (deltaX, deltaY))) =
      ({ e with camera := e.camera.pan (deltaX, deltaY) }, surface) ∧
    (panCallArgs deltaX deltaY).length = 1 := by
  exact ⟨rfl, rfl⟩

/-- C2: after `resize(w, h)` — from any prior viewport — `render` returns a
buffer of exactly `4 * w * h` bytes, assembled row-major from the top row
(`y = 0`) with one 4-byte R,G,B,A group per pixel. -/
theorem C2_resize_render_length (e : Engine) (w h : Nat) :
    ((e.resize w h).render).length = 4 * w * h ∧
    (e.resize w h).render =
      (List.range h).flatMap (fun y =>
        (List.range w).flatMap fun x => renderPixel (e.resize w h) x y) := by
  constructor
  · show ((e.resize w h).render).length = 4 * w * h
    unfold Engine.render
    rw [length_flatMap_const _ _ (4 * w)]
    · simp [Engine.resize, Nat.mul_assoc]
    · intro y
      rw [length_flatMap_const _ _ 4 (fun x => renderPixel_length _ x y)]
      simp [Engine.resize]
  · rfl

/-- C7: the camera-distance invariant `distance > 0` (indeed
`distance ≥ MIN_DISTANCE > 0`) is preserved by every sequence of orbit, zoom,
pan and resize operations; in particular any number of `zoom(-1)` steps never
drives the distance to zero or negative. -/
theorem C7_distance_invariant (e : Engine) (ops : List EngineOp)
    (h : MIN_DISTANCE ≤ e.camera.distance) :
    0 < (ops.foldl Engine.applyOp e).camera.distance ∧
    MIN_DISTANCE ≤ (ops.foldl Engine.applyOp e).camera.distance ∧
    0 < ((List.replicate ops.length (EngineOp.zoom (-1))).foldl
          Engine.applyOp e).camera.distance := by
  have key := foldl_applyOp_min_distance ops e h
  have keyrep := foldl_applyOp_min_distance
    (List.replicate ops.length (EngineOp.zoom (-1))) e h
  have hpos : (0 : ℚ) < MIN_DISTANCE := by norm_num [MIN_DISTANCE]
  exact ⟨lt_of_lt_of_le hpos key, key, lt_of_lt_of_le hpos keyrep⟩

/-- C7 witness: from the initial engine, three maximal zoom-in steps leave the
distance positive and at or above the floor. -/
theorem C7_distance_invariant_witness :
    0 < (([EngineOp.zoom (-1), EngineOp.zoom (-1), EngineOp.zoom (-1)].foldl
          Engine.applyOp engineInit)).camera.distance ∧
    MIN_DISTANCE ≤ (([EngineOp.zoom (-1), EngineOp.zoom (-1), EngineOp.zoom (-1)].foldl
          Engine.applyOp engineInit)).camera.distance ∧
    0 < ((List.replicate ([EngineOp.zoom (-1), EngineOp.zoom (-1),
          EngineOp.zoom (-1)] : List EngineOp).length (EngineOp.zoom (-1))).foldl
          Engine.applyOp engineInit).camera.distance :=
  C7_distance_invariant engineInit [EngineOp.zoom (-1), EngineOp.zoom (-1), EngineOp.zoom (-1)]
    (by norm_num [engineInit, cameraInit, MIN_DISTANCE])

/-- C3: while dragging with the viewer, canvas and 2D context available, a
primary-button (0) move maps to an orbit call and a secondary-button (2) move
to a pan call, every wheel event maps to a zoom call, and each such call is
followed by a render call and a surface update. -/
theorem C3_interaction_mapping (env : HostEnv) (s : MouseState) (x y dY : ℚ)
    (hv : env.viewerLoaded = true) (hc : env.canvasAvailable = true)
    (hx : env.ctxAvailable = true) (hd : s.isDragging = true) :
    (s.mouseButton = some 0 →
      handleMouseMove env s x y =
        [.orbit ((x - s.lastX) * (5 / 1000)) ((y - s.lastY) * (5 / 1000)),
         .render, .surfaceUpdate]) ∧
    (s.mouseButton = some 2 →
      handleMouseMove env s x y =
        [.pan ((x - s.lastX) * (1 / 10), (y - s.lastY) * (1 / 10)),
         .render, .surfaceUpdate]) ∧
    handleWheel env dY =
      [.zoom (if dY > 0 then 1 / 10 else -(1 / 10)), .render, .surfaceUpdate] := by
  refine ⟨fun hb => ?_, fun hb => ?_, ?_⟩
  · simp [handleMouseMove, renderFrameCalls, hv, hc, hx, hd, hb]
  · simp [handleMouseMove, renderFrameCalls, hv, hc, hx, hd, hb]
  · simp [handleWheel, renderFrameCalls, hv, hc, hx]

/-- C3 witness: a concrete button-0 drag from (0,0) to (10,20) and a wheel
event with positive delta, in a fully available host environment. -/
theorem C3_interaction_mapping_witness :
    ((⟨true, some 0, 0, 0⟩ : MouseState).mouseButton = some 0 →
      handleMouseMove ⟨true, true, true⟩ ⟨true, some 0, 0, 0⟩ 10 20 =
        [.orbit ((10 - (0 : ℚ)) * (5 / 1000)) ((20 - (0 : ℚ)) * (5 / 1000)),
         .render, .surfaceUpdate]) ∧
    ((⟨true, some 0, 0, 0⟩ : MouseState).mouseButton = some 2 →
      handleMouseMove ⟨true, true, true⟩ ⟨true, some 0, 0, 0⟩ 10 20 =
        [.pan ((10 - (0 : ℚ)) * (1 / 10), (20 - (0 : ℚ)) * (1 / 10)),
         .render, .surfaceUpdate]) ∧
    handleWheel ⟨true, true, true⟩ 1 =
      [.zoom (if (1 : ℚ) > 0 then 1 / 10 else -(1 / 10)), .render, .surfaceUpdate] :=
  C3_interaction_mapping ⟨true, true, true⟩ ⟨true, some 0, 0, 0⟩ 10 20 1 rfl rfl rfl rfl

/-- C10: with the viewer available, the wheel handler zooms by exactly `+0.1`
when the wheel delta is positive and by exactly `-0.1` otherwise (a zero delta
included), and under the spec-modelled clamped zoom the positive step does not
decrease the camera distance (positive delta moves the camera away). -/
theorem C10_wheel_zoom_step (env : HostEnv) (dY : ℚ) (c : Camera)
    (hv : env.viewerLoaded = true) (hc : env.canvasAvailable = true)
    (hx : env.ctxAvailable = true)
    (hlo : MIN_DISTANCE ≤ c.distance) (hhi : c.distance ≤ MAX_DISTANCE) :
    (0 < dY → handleWheel env dY = [.zoom (1 / 10), .render, .surfaceUpdate]) ∧
    (dY ≤ 0 → handleWheel env dY = [.zoom (-(1 / 10)), .render, .surfaceUpdate]) ∧
    c.distance ≤ (c.zoom (1 / 10)).distance := by
  have h0 : (0 : ℚ) < c.distance :=
    lt_of_lt_of_le (by norm_num [MIN_DISTANCE]) hlo
  refine ⟨fun hpos => ?_, fun hneg => ?_, ?_⟩
  · simp [handleWheel, renderFrameCalls, hv, hc, hx, hpos]
  · simp [handleWheel, renderFrameCalls, hv, hc, hx, not_lt.mpr hneg]
  · simp only [Camera.zoom]
    have h1 : c.distance ≤ c.distance * (1 + 1 / 10) := by nlinarith
    exact le_trans (le_min hhi h1) (le_max_right _ _)

/-- C10 witness: a zero wheel delta on the initial camera. -/
theorem C10_wheel_zoom_step_witness :
    (0 < (0 : ℚ) → handleWheel ⟨true, true, true⟩ 0 =
      [.zoom (1 / 10), .render, .surfaceUpdate]) ∧
    ((0 : ℚ) ≤ 0 → handleWheel ⟨true, true, true⟩ 0 =
      [.zoom (-(1 / 10)), .render, .surfaceUpdate]) ∧
    cameraInit.distance ≤ (cameraInit.zoom (1 / 10)).distance :=
  C10_wheel_zoom_step ⟨true, true, true⟩ 0 cameraInit rfl rfl rfl
    (by norm_num [cameraInit, MIN_DISTANCE]) (by norm_num [cameraInit, MAX_DISTANCE])

/-- C4: whenever `load_volume` succeeds it returns a 3-element dimensions
list that the host's validation accepts, and the host's validation accepts a
result exactly when it is a (non-null) 3-element list. -/
theorem C4_dimensions_triple (e e2 : Engine) (input : Option (List Page))
    (dims : List Nat) (h : e.load_volume input = (e2, .ok dims)) :
    dims.length = 3 ∧ dimensionsValid (some dims) = true ∧
    (∀ r : Option (List Nat),
      dimensionsValid r = true ↔ ∃ d, r = some d ∧ d.length = 3) := by
  have hlen : dims.length = 3 := by
    unfold Engine.load_volume at h
    cases hdec : decodeVolume input with
    | ok v =>
        rw [hdec] at h
        have : [v.width, v.height, v.depth] = dims := by
          simpa using congrArg (fun p => p.2) h
        simp [← this]
    | error err =>
        rw [hdec] at h
        simp at h
  refine ⟨hlen, by simp [dimensionsValid, hlen], fun r => ?_⟩
  cases r with
  | none => simp [dimensionsValid]
  | some d => simp [dimensionsValid]

/-- C4 witness: loading a concrete single-page 1×1 input succeeds with the
3-element dimensions list `[1, 1, 1]`. -/
theorem C4_dimensions_triple_witness :
    ([1, 1, 1] : List Nat).length = 3 ∧ dimensionsValid (some [1, 1, 1]) = true ∧
    (∀ r : Option (List Nat),
      dimensionsValid r = true ↔ ∃ d, r = some d ∧ d.length = 3) :=
  C4_dimensions_triple engineInit { engineInit with volume := some witnessVolume }
    (some [witnessPage]) [1, 1, 1] rfl

/-- C5: for every file whose size exceeds 256 MiB, the upload handler ends in
an error without ever invoking `load_volume`, leaving the engine untouched
(regardless of whether the extension check also fails first). -/
theorem C5_size_bound (e : Engine) (f : UploadFile) (h : f.size > MAX_FILE_SIZE) :
    (handleFileUpload e f).2.1 = false ∧
    (handleFileUpload e f).1.error ≠ none ∧
    (handleFileUpload e f).2.2 = e := by
  unfold handleFileUpload
  by_cases hx : tiffExtension f.name
  · simp [hx, h]
  · simp [hx]

/-- C5 witness: a `.tif` file one byte over the 256 MiB bound. -/
theorem C5_size_bound_witness :
    (handleFileUpload engineInit ⟨"big.tif", 268435457, none⟩).2.1 = false ∧
    (handleFileUpload engineInit ⟨"big.tif", 268435457, none⟩).1.error ≠ none ∧
    (handleFileUpload engineInit ⟨"big.tif", 268435457, none⟩).2.2 = engineInit :=
  C5_size_bound engineInit ⟨"big.tif", 268435457, none⟩ (by norm_num [MAX_FILE_SIZE])

/-- C6: when decoding fails with any of the four decode errors, `load_volume`
returns the engine state completely unchanged — in particular a previously
loaded Volume stays active and no partial volume is installed. -/
theorem C6_load_atomic (e : Engine) (input : Option (List Page)) (err : DecodeError)
    (h : decodeVolume input = .error err) :
    e.load_volume input = (e, .error err) ∧
    (e.load_volume input).1.volume = e.volume := by
  unfold Engine.load_volume
  rw [h]
  exact ⟨rfl, rfl⟩

/-- C6 witness: an engine holding a previously loaded volume keeps it when a
zero-page input fails with `emptyVolume`. -/
theorem C6_load_atomic_witness :
    Engine.load_volume { engineInit with volume := some witnessVolume } (some []) =
      ({ engineInit with volume := some witnessVolume }, .error .emptyVolume) ∧
    (Engine.load_volume { engineInit with volume := some witnessVolume }
      (some [])).1.volume = ({ engineInit with volume := some witnessVolume} : Engine).volume :=
  C6_load_atomic { engineInit with volume := some witnessVolume } (some [])
    DecodeError.emptyVolume rfl

/-- C8: for every file whose lowercased name ends in neither `.tif` nor
`.tiff`, the upload handler ends in an error without invoking `load_volume`. -/
theorem C8_extension_filter (e : Engine) (f : UploadFile)
    (h : tiffExtension f.name = false) :
    (handleFileUpload e f).2.1 = false ∧
    (handleFileUpload e f).1.error ≠ none ∧
    (handleFileUpload e f).2.2 = e := by
  unfold handleFileUpload
  simp [h]

/-- C8 witness: a `.png` file is rejected before `load_volume`. -/
theorem C8_extension_filter_witness :
    (handleFileUpload engineInit ⟨"volume.png", 10, none⟩).2.1 = false ∧
    (handleFileUpload engineInit ⟨"volume.png", 10, none⟩).1.error ≠ none ∧
    (handleFileUpload engineInit ⟨"volume.png", 10, none⟩).2.2 = engineInit :=
  C8_extension_filter engineInit ⟨"volume.png", 10, none⟩ (by decide)

/-- C9: every failing path of the upload handler — bad extension, oversize
file, `load_volume` rejection, or a malformed dimensions result — ends with
the displayed dimensions cleared to null and a non-null error message. -/
theorem C9_failure_clears_dimensions (e : Engine) (f : UploadFile)
    (h : tiffExtension f.name = false ∨ f.size > MAX_FILE_SIZE ∨
      (∃ err, (e.load_volume f.content).2 = .error err) ∨
      (∃ dims, (e.load_volume f.content).2 = .ok dims ∧ dims.length ≠ 3)) :
    (handleFileUpload e f).1.dimensions = none ∧
    (handleFileUpload e f).1.error ≠ none := by
  unfold handleFileUpload
  by_cases hx : tiffExtension f.name
  · by_cases hs : f.size > MAX_FILE_SIZE
    · simp [hx, hs]
    · rcases h with hbad | hbad | ⟨err, herr⟩ | ⟨dims, hok, hlen⟩
      · rw [hbad] at hx; exact absurd hx (by simp)
      · exact absurd hbad hs
      · rcases hres : e.load_volume f.content with ⟨e2, res⟩
        rw [hres] at herr
        simp only [] at herr
        subst herr
        simp [hx, hs, hres]
      · rcases hres : e.load_volume f.content with ⟨e2, res⟩
        rw [hres] at hok
        simp only [] at hok
        subst hok
        simp [hx, hs, hres, dimensionsValid, hlen]
  · simp [hx]

/-- C9 witness: a badly named file ends with null dimensions and an error. -/
theorem C9_failure_clears_dimensions_witness :
    (handleFileUpload engineInit ⟨"scan.jpeg", 10, none⟩).1.dimensions = none ∧
    (handleFileUpload engineInit ⟨"scan.jpeg", 10, none⟩).1.error ≠ none :=
  C9_failure_clears_dimensions engineInit ⟨"scan.jpeg", 10, none⟩ (Or.inl (by decide))

end VolumeViewer
